import Mathlib

/-!
# Verification of the rsocket-py routing, fragmentation and channel-responder logic

Shallow embedding of the parts of the `rsocket-py` repository needed for the
claims: the route registry (`rsocket/routing/request_router.py`), the routing
request handler (`rsocket/routing/routing_request_handler.py`), the
fragmentation / fragment-cache layer (modelled from the specification, since
`rsocket/frame.py` and `rsocket/frame_fragment_cache.py` are exercised only by
the repository's tests), and the channel responder
(`rsocket/handlers/request_cahnnel_responder.py`).

Python byte strings are modelled as `List Nat`, dictionaries as association
lists with first-match lookup, raised exceptions as an error sum `PyErr`, and
handler functions as values of an abstract type `H`.
-/

namespace RSocketPy

/-- Frame types relevant to routing and fragmentation
(`rsocket/frame.py`, `FrameType` enum; the numeric codes are those of the
RSocket protocol but only the constructors matter here). -/
inductive FrameType where
  | setup
  | requestResponse
  | requestFnf
  | requestStream
  | requestChannel
  | metadataPush
  | payload
  deriving DecidableEq, Repr

/-- Python exceptions raised by the embedded code paths.  Each constructor
corresponds to one `raise` site (or to a dynamic error Python raises itself,
such as `TypeError` for a call with missing positional arguments). -/
inductive PyErr where
  /-- `TypeError`: a function called with the wrong number of positional
  arguments. -/
  | typeError
  /-- `KeyError('Duplicate route ...')` raised in `decorator_factory`. -/
  | duplicateRoute (route : String)
  /-- `RSocketEmptyRoute` raised in `decorator_factory`. -/
  | emptyRoute
  /-- `RSocketUnknownRoute` raised in `RequestRouter.route`. -/
  | unknownRoute (route : String)
  /-- `Exception('No route found in request')` raised in `_require_route`. -/
  | noRouteFound
  /-- `Exception('Authentication required but not provided')` raised in
  `_verify_authentication`. -/
  | authenticationRequired
  /-- an exception raised by a user-supplied authentication verifier. -/
  | authenticationFailed (message : String)
  /-- `Exception('Setup frame did not specify composite metadata. ...')`
  raised in `RoutingRequestHandler.on_setup`. -/
  | setupNotCompositeMetadata
  /-- `IndexError`: `tags[0]` on an empty tag list in `_require_route`. -/
  | indexError
  /-- `KeyError`: indexing a dict with a key it does not hold. -/
  | keyError
  /-- `RSocketFrameFragmentDifferentType` raised by the fragment cache. -/
  | fragmentDifferentType
  deriving DecidableEq, Repr

/-- `safe_len` from `rsocket/frame_helpers.py` (the module is not under the
sources provided; the behaviour is fixed by its use in `decorator_factory`
and the spec's words "registering empty or null route fails": `None` has
length 0, a string has its length). -/
def safe_len : Option String → Nat
  | none => 0
  | some s => s.length

/-- First-match lookup in a Python dict modelled as an association list. -/
def lookupRoute {H : Type} : List (String × H) → String → Option H
  | [], _ => none
  | (k, v) :: rest, r => if k = r then some v else lookupRoute rest r

/-- `decorator_factory` from `rsocket/routing/request_router.py`.  The Python
decorator mutates `container`; here the result is the possibly-raised
exception together with the container state after the call (the two `raise`
statements occur before the assignment `container[route] = function`, so on
an exception the container is returned unchanged). -/
def decorator_factory {H : Type} (container : List (String × H)) (route : Option String)
    (function : H) : Option PyErr × List (String × H) :=
  if safe_len route = 0 then
    (some PyErr.emptyRoute, container)
  else if (lookupRoute container (route.getD "")).isSome then
    (some (PyErr.duplicateRoute (route.getD "")), container)
  else
    (none, container ++ [(route.getD "", function)])

/-- The `Handlers` dataclass of unknown-route fallbacks
(`rsocket/routing/request_router.py`). -/
structure Handlers (H : Type) where
  response : Option H := none
  stream : Option H := none
  channel : Option H := none
  fire_and_forget : Option H := none
  metadata_push : Option H := none
  deriving DecidableEq, Repr

/-- The `RequestRouter` state: one route table per request frame type plus the
unknown-route fallbacks (`RequestRouter.__init__`).  Handler functions are
abstracted to values of `H`; `_payload_mapper` and argument collection are
not modelled because dispatch returns the selected handler. -/
structure RequestRouter (H : Type) where
  channel_routes : List (String × H) := []
  stream_routes : List (String × H) := []
  response_routes : List (String × H) := []
  fnf_routes : List (String × H) := []
  metadata_push : List (String × H) := []
  unknown : Handlers H := {}
  deriving DecidableEq, Repr

/-- `_route_map_by_frame_type`: the dict from frame type to route table built
in `RequestRouter.__init__`.  Frame types outside the five request kinds are
not keys of the Python dict; indexing with them raises `KeyError` — this is
modelled at the lookup site (`RequestRouter.route`), which is only ever
invoked with one of the five. -/
def RequestRouter.route_map_by_frame_type {H : Type} (r : RequestRouter H) :
    FrameType → Option (List (String × H))
  | FrameType.requestChannel => some r.channel_routes
  | FrameType.requestFnf => some r.fnf_routes
  | FrameType.requestStream => some r.stream_routes
  | FrameType.requestResponse => some r.response_routes
  | FrameType.metadataPush => some r.metadata_push
  | _ => none

/-- `RequestRouter._get_unknown_route`. -/
def RequestRouter.get_unknown_route {H : Type} (r : RequestRouter H) :
    FrameType → Option H
  | FrameType.requestResponse => r.unknown.response
  | FrameType.requestStream => r.unknown.stream
  | FrameType.requestChannel => r.unknown.channel
  | FrameType.requestFnf => r.unknown.fire_and_forget
  | FrameType.metadataPush => r.unknown.metadata_push
  | _ => none

/-- `RequestRouter.route` (four parameters: `frame_type`, `route`, `payload`,
`composite_metadata`): look the route up in the table for the frame type,
fall back to the unknown-route handler of that frame type, and raise
`RSocketUnknownRoute` if neither exists.  Dispatch returns the selected
handler; invoking it (argument collection, payload mapping) is the caller's
side and not part of the claims.  Indexing `_route_map_by_frame_type` with a
non-request frame type raises `KeyError`; the five request kinds always
succeed in the lookup of the table itself. -/
def RequestRouter.route {H : Type} (r : RequestRouter H) (frame_type : FrameType)
    (route : String) : Except PyErr H :=
  match r.route_map_by_frame_type frame_type with
  | none => Except.error PyErr.keyError
  | some table =>
    match lookupRoute table route with
    | some route_processor => Except.ok route_processor
    | none =>
      match r.get_unknown_route frame_type with
      | some route_processor => Except.ok route_processor
      | none => Except.error (PyErr.unknownRoute route)

/-- The registration methods `response(route)`, `stream(route)`,
`channel(route)`, `fire_and_forget(route)` and `metadata_push(route)` of
`RequestRouter`, folded into one function over the frame type each serves:
each method is `decorator_factory` applied to the route table of its frame
type.  The router exposes no registration method for non-request frame
types; those cases return the router unchanged and are never used. -/
def RequestRouter.register {H : Type} (r : RequestRouter H) (frame_type : FrameType)
    (route : Option String) (function : H) : Option PyErr × RequestRouter H :=
  match frame_type with
  | FrameType.requestResponse =>
    let result := decorator_factory r.response_routes route function
    (result.1, { r with response_routes := result.2 })
  | FrameType.requestStream =>
    let result := decorator_factory r.stream_routes route function
    (result.1, { r with stream_routes := result.2 })
  | FrameType.requestChannel =>
    let result := decorator_factory r.channel_routes route function
    (result.1, { r with channel_routes := result.2 })
  | FrameType.requestFnf =>
    let result := decorator_factory r.fnf_routes route function
    (result.1, { r with fnf_routes := result.2 })
  | FrameType.metadataPush =>
    let result := decorator_factory r.metadata_push route function
    (result.1, { r with metadata_push := result.2 })
  | _ => (none, r)

/-- Authentication metadata content
(`rsocket/extensions/authentication.py`, abstracted: the claims only pass it
through to the verifier, so its internal structure is irrelevant). -/
structure Authentication where
  value : String
  deriving DecidableEq, Repr

/-- A parsed composite-metadata entry.  The byte-level composite-metadata
serialization is not under verification: a metadata section is carried
directly as its parsed item list, so `CompositeMetadata().parse` is the
identity on this representation.  `routing` is a `RoutingMetadata` item
(list of tags, first tag is the route), `authenticationContent` an
`AuthenticationContent` item, `other` any other entry kind. -/
inductive MetadataItem where
  | routing (tags : List String)
  | authenticationContent (authentication : Authentication)
  | other
  deriving DecidableEq, Repr

/-- `Payload` as seen by the routing handler: data bytes plus the (parsed)
composite metadata. -/
structure Payload where
  data : List Nat := []
  metadata : List MetadataItem := []
  deriving DecidableEq, Repr

/-- An authentication verifier: `Callable[[str, Authentication], ...]` that
raises on failure (`Except.error`) and returns on success. -/
def Verifier : Type := String → Authentication → Except PyErr Unit

/-- `always_allow_authenticator` from `rsocket/helpers.py` (module not under
the provided sources; the spec fixes it as the default always-allow
verifier: it accepts every `(route, authentication)` pair). -/
def always_allow_authenticator : Verifier := fun _ _ => Except.ok ()

/-- `RoutingRequestHandler` state: the router and the optional verifier
(lease fields play no part in the claims). -/
structure RoutingRequestHandler (H : Type) where
  router : RequestRouter H
  authentication_verifier : Option Verifier

/-- `RoutingRequestHandler._require_route`: return the first tag of the first
`RoutingMetadata` item; raise `Exception('No route found in request')` when
no such item exists (`tags[0]` on an empty tag list raises `IndexError`). -/
def require_route : List MetadataItem → Except PyErr String
  | [] => Except.error PyErr.noRouteFound
  | MetadataItem.routing tags :: _ =>
    match tags with
    | [] => Except.error PyErr.indexError
    | t :: _ => Except.ok t
  | _ :: rest => require_route rest

/-- First `AuthenticationContent` item of a composite metadata, if any
(the loop body of `_verify_authentication`). -/
def firstAuthentication : List MetadataItem → Option Authentication
  | [] => none
  | MetadataItem.authenticationContent a :: _ => some a
  | _ :: rest => firstAuthentication rest

/-- `RoutingRequestHandler._verify_authentication`: nothing to check when no
verifier is configured; otherwise invoke the verifier on the first
`AuthenticationContent` item, and raise
`Exception('Authentication required but not provided')` when there is none. -/
def verify_authentication (verifier : Option Verifier) (route : String)
    (composite_metadata : List MetadataItem) : Except PyErr Unit :=
  match verifier with
  | none => Except.ok ()
  | some v =>
    match firstAuthentication composite_metadata with
    | some a => v route a
    | none => Except.error PyErr.authenticationRequired

/-- A positional argument of a call to `RequestRouter.route`. -/
inductive RouteArg (H : Type) where
  | frameType (ft : FrameType)
  | str (s : String)
  | payloadArg (p : Payload)
  | compositeMetadata (items : List MetadataItem)

/-- Python call semantics for `RequestRouter.route`: the method has four
required positional parameters `(frame_type, route, payload,
composite_metadata)`.  A call whose argument list does not have length 4
raises `TypeError` during binding, before the body runs.  With four
arguments of the expected kinds the body is `RequestRouter.route`.  (A
four-argument call whose first argument is not a `FrameType` would raise
`KeyError` when the body indexes `_route_map_by_frame_type`; no call of that
shape occurs in the embedded code.) -/
def RequestRouter.call_route {H : Type} (r : RequestRouter H) (args : List (RouteArg H)) :
    Except PyErr H :=
  match args with
  | [RouteArg.frameType ft, RouteArg.str route, RouteArg.payloadArg _,
     RouteArg.compositeMetadata _] => r.route ft route
  | args => if args.length = 4 then Except.error PyErr.keyError else Except.error PyErr.typeError

/-- `RoutingRequestHandler._parse_and_route`: parse the composite metadata
(identity in this representation), extract the route, verify authentication,
then call `self.router.route(route, payload, composite_metadata)` — note the
source passes these three positional arguments only, without a
`frame_type`. -/
def RoutingRequestHandler.parse_and_route {H : Type} (h : RoutingRequestHandler H)
    (payload : Payload) : Except PyErr H := do
  let composite_metadata := payload.metadata
  let route ← require_route composite_metadata
  let _ ← verify_authentication h.authentication_verifier route composite_metadata
  h.router.call_route [RouteArg.str route, RouteArg.payloadArg payload,
    RouteArg.compositeMetadata composite_metadata]

/-- Outcome of `request_fire_and_forget`: either the routed call completed
(its value discarded — the method body is `await self._parse_and_route(payload)`
with no `return`) or an exception was caught and logged. -/
inductive FnfOutcome where
  | completed
  | logged (e : PyErr)
  deriving DecidableEq, Repr

/-- `RoutingRequestHandler.request_fire_and_forget`: run `_parse_and_route`,
catching every exception and logging it; nothing is returned or re-raised. -/
def RoutingRequestHandler.request_fire_and_forget {H : Type}
    (h : RoutingRequestHandler H) (payload : Payload) : FnfOutcome :=
  match h.parse_and_route payload with
  | Except.ok _ => FnfOutcome.completed
  | Except.error e => FnfOutcome.logged e

/-- `WellKnownMimeTypes.MESSAGE_RSOCKET_COMPOSITE_METADATA.value.name`
(`rsocket/extensions/mimetypes.py` is not under the provided sources; the
string is fixed by the spec's composite-metadata mime registry, id 0x7A). -/
def MESSAGE_RSOCKET_COMPOSITE_METADATA : String :=
  "message/x.rsocket.composite-metadata.v0"

/-- State stored by a successful `on_setup`: the two encodings, and whether
`await super().on_setup(...)` (the base handler) was reached. -/
structure SetupResult where
  data_encoding : String
  metadata_encoding : String
  delegated_to_base : Bool
  deriving DecidableEq, Repr

/-- `RoutingRequestHandler.on_setup`: raise unless the metadata encoding is
the composite-metadata mime type; otherwise store both encodings and
delegate to the base handler's `on_setup`. -/
def on_setup (data_encoding metadata_encoding : String) : Except PyErr SetupResult :=
  if metadata_encoding ≠ MESSAGE_RSOCKET_COMPOSITE_METADATA then
    Except.error PyErr.setupNotCompositeMetadata
  else
    Except.ok ⟨data_encoding, metadata_encoding, true⟩

/-- A wire frame as the fragmentation layer sees it: the frame type, the
metadata and data byte slices it carries, and the FOLLOWS flag.  Modelled
from the spec: `rsocket/frame.py` and `rsocket/frame_fragment_cache.py` are
not under the provided sources (only their tests are); the spec fixes the
payload layout (metadata precedes data, each fragment carries its own
metadata slice). -/
structure FragmentFrame where
  frame_type : FrameType
  metadata : List Nat := []
  data : List Nat := []
  flags_follows : Bool := false
  deriving DecidableEq, Repr

/-- Modelled from the spec: outbound fragmentation splits the serialized
payload — metadata then data — into slices of at most `size` bytes; a split
may fall mid-section, so a chunk is a (metadata-slice, data-slice) pair.
The degenerate `size = 0` (the spec requires `fragment_size ≥ 3`) is mapped
to a single chunk to keep the recursion total. -/
def splitChunks (size : Nat) (metadata data : List Nat) :
    List (List Nat × List Nat) :=
  if metadata.length + data.length ≤ size ∨ size = 0 then
    [(metadata, data)]
  else
    let mdTake := min size metadata.length
    let dataTake := size - mdTake
    (metadata.take mdTake, data.take dataTake) ::
      splitChunks size (metadata.drop mdTake) (data.drop dataTake)
termination_by metadata.length + data.length
decreasing_by
  simp only [List.length_drop]
  omega

/-- Modelled from the spec: driving `get_next_fragment` to exhaustion yields
one frame per chunk — the first of the head frame's type (REQUEST_*,
METADATA_PUSH or PAYLOAD), continuations of type PAYLOAD, all but the last
with FOLLOWS=1 and the last with FOLLOWS=0. -/
def markFragments (head_type : FrameType) :
    List (List Nat × List Nat) → List FragmentFrame
  | [] => []
  | [c] => [{ frame_type := head_type, metadata := c.1, data := c.2,
              flags_follows := false }]
  | c :: rest =>
    { frame_type := head_type, metadata := c.1, data := c.2,
      flags_follows := true } :: markFragments FrameType.payload rest

/-- Modelled from the spec: the full fragment sequence produced for a logical
frame of type `head_type` carrying `metadata` and `data`, at fragment size
`size`. -/
def get_fragments (head_type : FrameType) (metadata data : List Nat)
    (size : Nat) : List FragmentFrame :=
  markFragments head_type (splitChunks size metadata data)

/-- The per-stream fragment accumulator
(spec: `{first_frame_type, accumulated_data, accumulated_metadata}`). -/
structure FragmentAccumulator where
  first_frame_type : FrameType
  accumulated_metadata : List Nat
  accumulated_data : List Nat
  deriving DecidableEq, Repr

/-- Modelled from the spec: `FrameFragmentCache.append` for one stream.  On a
frame with FOLLOWS=1 the accumulator is created or appended to; on FOLLOWS=0
with an accumulator present the sequence is finalized into a combined frame
of the head type; a frame with no accumulator and FOLLOWS=0 is complete and
passes through.  A subsequent fragment whose type is neither PAYLOAD nor the
accumulator's first frame type contradicts the sequence and raises
`RSocketFrameFragmentDifferentType`.  The result pairs the new accumulator
state with the combined frame, if one was produced. -/
def cache_append (acc : Option FragmentAccumulator) (f : FragmentFrame) :
    Except PyErr (Option FragmentAccumulator × Option FragmentFrame) :=
  match acc with
  | none =>
    if f.flags_follows then
      Except.ok (some ⟨f.frame_type, f.metadata, f.data⟩, none)
    else
      Except.ok (none, some f)
  | some a =>
    if f.frame_type ≠ FrameType.payload ∧ f.frame_type ≠ a.first_frame_type then
      Except.error PyErr.fragmentDifferentType
    else if f.flags_follows then
      Except.ok (some ⟨a.first_frame_type, a.accumulated_metadata ++ f.metadata,
        a.accumulated_data ++ f.data⟩, none)
    else
      Except.ok (none, some ⟨a.first_frame_type,
        a.accumulated_metadata ++ f.metadata,
        a.accumulated_data ++ f.data, false⟩)

/-- Feed a fragment sequence into the cache in order, returning the state
after the last `append` together with the combined frame the last `append`
returned (the repository's tests keep exactly that value). -/
def cache_feed : Option FragmentAccumulator → List FragmentFrame →
    Except PyErr (Option FragmentAccumulator × Option FragmentFrame)
  | acc, [] => Except.ok (acc, none)
  | acc, f :: rest =>
    match cache_append acc f, rest with
    | Except.error e, _ => Except.error e
    | Except.ok r, [] => Except.ok r
    | Except.ok r, rest => cache_feed r.1 rest

/-- An action performed by the channel responder.  The helpers it invokes —
`socket.send_complete`, `mark_completed_and_finish`,
`subscription.request(n)`, `_complete_remote_subscriber`,
`super().frame_received` — live in `RequestChannelCommon` and the connection
engine, which are not under the provided sources; modelled from the spec as
emitted abstract actions. -/
inductive ResponderAction where
  | sendComplete
  | markCompletedAndFinish (sent : Bool)
  | requestDemand (n : Nat)
  | completeRemoteSubscriber
  | superFrameReceived
  deriving DecidableEq, Repr

/-- A frame as received by `RequestChannelResponder.frame_received`: either a
`RequestChannelFrame` (with its `initial_request_n` and `flags_complete`) or
any other frame, which is delegated to the superclass. -/
inductive ChannelFrame where
  | requestChannel (initial_request_n : Nat) (flags_complete : Bool)
  | otherFrame
  deriving DecidableEq, Repr

/-- `RequestChannelResponder.frame_received`
(`rsocket/handlers/request_cahnnel_responder.py`): on a
`RequestChannelFrame`, if `self.subscriber.subscription is None`
(`has_subscription = false`) send COMPLETE on the stream and mark the
channel completed and finished (`sent=True`); otherwise forward the frame's
`initial_request_n` as demand to the subscription; then, in either case, if
the frame has `flags_complete`, complete the remote subscriber.  Other
frames go to the superclass. -/
def frame_received (has_subscription : Bool) : ChannelFrame → List ResponderAction
  | ChannelFrame.requestChannel initial_request_n flags_complete =>
    (if has_subscription then
      [ResponderAction.requestDemand initial_request_n]
    else
      [ResponderAction.sendComplete, ResponderAction.markCompletedAndFinish true]) ++
    (if flags_complete then [ResponderAction.completeRemoteSubscriber] else [])
  | ChannelFrame.otherFrame => [ResponderAction.superFrameReceived]

/-! ## Auxiliary lemmas -/

theorem splitChunks_ne_nil (size : Nat) (metadata data : List Nat) :
    splitChunks size metadata data ≠ [] := by
  rw [splitChunks]
  split <;> simp

theorem markFragments_ne_nil (t : FrameType) (cs : List (List Nat × List Nat))
    (h : cs ≠ []) : markFragments t cs ≠ [] := by
  match cs with
  | [] => exact absurd rfl h
  | [c] => simp [markFragments]
  | c :: c' :: rest => simp [markFragments]

/-- The chunks produced by `splitChunks` concatenate back to the original
metadata and data sections. -/
theorem splitChunks_flatten (size : Nat) (metadata data : List Nat) :
    ((splitChunks size metadata data).map Prod.fst).flatten = metadata ∧
      ((splitChunks size metadata data).map Prod.snd).flatten = data := by
  induction metadata, data using splitChunks.induct size with
  | case1 metadata data h =>
    rw [splitChunks, if_pos h]
    simp
  | case2 metadata data h mdTake dataTake ih =>
    rw [splitChunks, if_neg h]
    simp only [List.map_cons, List.flatten_cons, ih.1, ih.2]
    exact ⟨List.take_append_drop _ _, List.take_append_drop _ _⟩

/-- Feeding the continuation fragments of a nonempty chunk list into a cache
holding an accumulator appends all chunk slices in order and finalizes on
the last fragment. -/
theorem cache_feed_markFragments (cs : List (List Nat × List Nat)) :
    ∀ (t : FrameType) (m0 d0 : List Nat), cs ≠ [] →
      cache_feed (some ⟨t, m0, d0⟩) (markFragments FrameType.payload cs) =
        Except.ok (none, some ⟨t, m0 ++ (cs.map Prod.fst).flatten,
          d0 ++ (cs.map Prod.snd).flatten, false⟩) := by
  induction cs with
  | nil => intro t m0 d0 h; exact absurd rfl h
  | cons c rest ih =>
    intro t m0 d0 _
    cases rest with
    | nil => simp [markFragments, cache_feed, cache_append]
    | cons c' rest' =>
      have hne : markFragments FrameType.payload (c' :: rest') ≠ [] :=
        markFragments_ne_nil _ _ (by simp)
      rcases hmf : markFragments FrameType.payload (c' :: rest') with _ | ⟨f', fs'⟩
      · exact absurd hmf hne
      · simp only [markFragments, hmf, cache_feed, cache_append]
        rw [← hmf, ih t (m0 ++ c.1) (d0 ++ c.2) (by simp)]
        simp [List.append_assoc]

theorem string_length_eq_zero_iff (s : String) : s.length = 0 ↔ s = "" := by
  cases s with
  | mk data =>
    constructor
    · intro h0
      simp [String.length] at h0
      simp [h0]
    · intro h
      simp [h]

theorem lookupRoute_append_of_none {H : Type} (table : List (String × H))
    (rt : String) (f : H) (h : lookupRoute table rt = none) :
    lookupRoute (table ++ [(rt, f)]) rt = some f := by
  induction table with
  | nil => simp [lookupRoute]
  | cons kv rest ih =>
    rw [lookupRoute] at h
    by_cases hk : kv.1 = rt
    · simp [hk] at h
    · simp only [List.cons_append, lookupRoute, hk, if_neg hk] at h ⊢
      exact ih h

/-- Behaviour of `decorator_factory` on the four registration shapes: null
route, empty route, duplicate route, fresh route. -/
theorem decorator_factory_spec {H : Type} (container : List (String × H)) (f : H) :
    (decorator_factory container none f = (some PyErr.emptyRoute, container))
    ∧ (decorator_factory container (some "") f = (some PyErr.emptyRoute, container))
    ∧ (∀ rt g, rt ≠ "" → lookupRoute container rt = some g →
        decorator_factory container (some rt) f =
          (some (PyErr.duplicateRoute rt), container))
    ∧ (∀ rt, rt ≠ "" → lookupRoute container rt = none →
        decorator_factory container (some rt) f = (none, container ++ [(rt, f)])) := by
  refine ⟨by simp [decorator_factory, safe_len], by simp [decorator_factory, safe_len],
    fun rt g hne hlk => ?_, fun rt hne hlk => ?_⟩
  · have hlen : rt.length ≠ 0 := fun h0 => hne ((string_length_eq_zero_iff rt).mp h0)
    simp [decorator_factory, safe_len, hlen, hlk]
  · have hlen : rt.length ≠ 0 := fun h0 => hne ((string_length_eq_zero_iff rt).mp h0)
    simp [decorator_factory, safe_len, hlen, hlk]

/-- When `decorator_factory` raises, the container comes back unchanged: both
`raise` statements precede the assignment. -/
theorem decorator_factory_error_preserves {H : Type} (container : List (String × H))
    (route : Option String) (f : H) :
    (decorator_factory container route f).1.isSome →
      (decorator_factory container route f).2 = container := by
  unfold decorator_factory
  split
  · intro _; rfl
  · split
    · intro _; rfl
    · simp

/-- Feeding a nonempty chunk list marked as fragments into an empty cache
yields the combined frame with all slices concatenated. -/
theorem cache_feed_markFragments_none (cs : List (List Nat × List Nat))
    (h : cs ≠ []) (t : FrameType) :
    cache_feed none (markFragments t cs) =
      Except.ok (none, some ⟨t, (cs.map Prod.fst).flatten,
        (cs.map Prod.snd).flatten, false⟩) := by
  match cs with
  | [] => exact absurd rfl h
  | [c] => simp [markFragments, cache_feed, cache_append]
  | c :: c' :: rest =>
    rcases hmf : markFragments FrameType.payload (c' :: rest) with _ | ⟨f', fs'⟩
    · exact absurd hmf (markFragments_ne_nil _ _ (by simp))
    · simp only [markFragments, hmf, cache_feed, cache_append]
      rw [← hmf, cache_feed_markFragments (c' :: rest) t c.1 c.2 (by simp)]
      simp

/-! ## Claim theorems -/

/-- C3: for every payload (any data bytes and any metadata bytes, either
possibly empty) and every `fragment_size ≥ 3`, splitting the logical frame
into fragments via repeated `get_next_fragment` and feeding the resulting
fragment sequence, in order, into the fragment cache yields a combined
frame whose data equals the original data and whose metadata equals the
original metadata. -/
theorem fragment_reassembly_roundtrip (head_type : FrameType)
    (metadata data : List Nat) (fragment_size : Nat)
    (_hsize : 3 ≤ fragment_size) :
    cache_feed none (get_fragments head_type metadata data fragment_size) =
      Except.ok (none, some { frame_type := head_type, metadata := metadata,
                              data := data, flags_follows := false }) := by
  rw [get_fragments,
    cache_feed_markFragments_none _ (splitChunks_ne_nil fragment_size metadata data)
      head_type,
    (splitChunks_flatten fragment_size metadata data).1,
    (splitChunks_flatten fragment_size metadata data).2]

/-- Witness for C3 at a concrete input: metadata `"45"`, data `"1234"`,
fragment size 3. -/
theorem fragment_reassembly_roundtrip_witness :
    3 ≤ 3 ∧
      cache_feed none (get_fragments FrameType.requestStream [52, 53] [49, 50, 51, 52] 3) =
        Except.ok (none, some { frame_type := FrameType.requestStream,
                                metadata := [52, 53], data := [49, 50, 51, 52],
                                flags_follows := false }) :=
  ⟨by decide,
    fragment_reassembly_roundtrip FrameType.requestStream [52, 53] [49, 50, 51, 52] 3
      (by decide)⟩

/-- C4: fragmenting data `"123abc89"` with metadata `"456def"` at fragment
size 3 produces exactly 5 fragments, every fragment except the last with
FOLLOWS=1 and the last with FOLLOWS=0, and reassembling them yields the
original data and metadata. -/
theorem fragment_boundary_scenario :
    (get_fragments FrameType.payload [52, 53, 54, 100, 101, 102]
      [49, 50, 51, 97, 98, 99, 56, 57] 3).length = 5
    ∧ (get_fragments FrameType.payload [52, 53, 54, 100, 101, 102]
        [49, 50, 51, 97, 98, 99, 56, 57] 3).map FragmentFrame.flags_follows =
      [true, true, true, true, false]
    ∧ cache_feed none (get_fragments FrameType.payload [52, 53, 54, 100, 101, 102]
        [49, 50, 51, 97, 98, 99, 56, 57] 3) =
      Except.ok (none, some { frame_type := FrameType.payload,
                              metadata := [52, 53, 54, 100, 101, 102],
                              data := [49, 50, 51, 97, 98, 99, 56, 57],
                              flags_follows := false }) := by
  have hchunks : splitChunks 3 [52, 53, 54, 100, 101, 102]
      [49, 50, 51, 97, 98, 99, 56, 57] =
      [([52, 53, 54], []), ([100, 101, 102], []), ([], [49, 50, 51]),
       ([], [97, 98, 99]), ([], [56, 57])] := by
    rw [splitChunks]; norm_num
    rw [splitChunks]; norm_num
    rw [splitChunks]; norm_num
    rw [splitChunks]; norm_num
    rw [splitChunks]; norm_num
  refine ⟨?_, ?_, ?_⟩ <;> simp [get_fragments, hchunks, markFragments, cache_feed, cache_append]

/-- C5: if the fragment cache holds an accumulator started by a frame of one
type, then appending a subsequent fragment of a different frame type (other
than a PAYLOAD continuation) raises `RSocketFrameFragmentDifferentType`
rather than producing a combined frame. -/
theorem fragment_type_mismatch_raises (a : FragmentAccumulator) (f : FragmentFrame)
    (h1 : f.frame_type ≠ FrameType.payload)
    (h2 : f.frame_type ≠ a.first_frame_type) :
    cache_append (some a) f = Except.error PyErr.fragmentDifferentType := by
  simp [cache_append, h1, h2]

/-- Witness for C5, mirroring
`test_frame_building_should_fail_if_inconsistent_frame_type`: a
REQUEST_RESPONSE fragment with FOLLOWS=1 starts the accumulator, and a
REQUEST_CHANNEL fragment for the same stream then raises. -/
theorem fragment_type_mismatch_raises_witness :
    cache_append none { frame_type := FrameType.requestResponse,
                        data := [49, 50, 51], flags_follows := true } =
      Except.ok (some ⟨FrameType.requestResponse, [], [49, 50, 51]⟩, none)
    ∧ cache_append (some ⟨FrameType.requestResponse, [], [49, 50, 51]⟩)
        { frame_type := FrameType.requestChannel, data := [49, 50, 51],
          flags_follows := false } =
      Except.error PyErr.fragmentDifferentType :=
  ⟨rfl, fragment_type_mismatch_raises _ _ (by decide) (by decide)⟩

theorem except_bind_ok {ε α β : Type} (a : α) (f : α → Except ε β) :
    (Except.ok (ε := ε) a >>= f) = f a := rfl

theorem except_bind_error {ε α β : Type} (e : ε) (f : α → Except ε β) :
    (Except.error (α := α) e >>= f) = Except.error (α := β) e := rfl

/-- `_parse_and_route`, unfolded: route extraction, then authentication,
then the three-positional-argument call to `RequestRouter.route`, which
raises `TypeError` during binding. -/
theorem parse_and_route_eq {H : Type} (h : RoutingRequestHandler H) (p : Payload) :
    h.parse_and_route p =
      match require_route p.metadata with
      | Except.error e => Except.error e
      | Except.ok route =>
        match verify_authentication h.authentication_verifier route p.metadata with
        | Except.error e => Except.error e
        | Except.ok _ => Except.error PyErr.typeError := by
  cases hr : require_route p.metadata with
  | error e =>
    simp only [RoutingRequestHandler.parse_and_route, hr, except_bind_error]
  | ok route =>
    cases hv : verify_authentication h.authentication_verifier route p.metadata with
    | error e =>
      simp only [RoutingRequestHandler.parse_and_route, hr, hv, except_bind_ok,
        except_bind_error]
    | ok u =>
      simp only [RoutingRequestHandler.parse_and_route, hr, hv, except_bind_ok,
        RequestRouter.call_route]
      rfl

/-- C1 (code bug): `RequestRouter.route`, called with its four parameters,
does dispatch as claimed — the route table for the frame type, then the
unknown-route fallback, then `RSocketUnknownRoute` — but
`RoutingRequestHandler._parse_and_route` calls it with only three
positional arguments (`route`, `payload`, `composite_metadata`), dropping
`frame_type`, so every routed request fails with `TypeError` and a request
whose route is registered never reaches the registered handler. -/
theorem routed_dispatch_drops_frame_type :
    (∀ (H : Type) (h : RoutingRequestHandler H) (p : Payload),
        ∃ e : PyErr, h.parse_and_route p = Except.error e)
    ∧ RequestRouter.route
        ({ response_routes := [("test.path", "handler")] } : RequestRouter String)
        FrameType.requestResponse "test.path" = Except.ok "handler"
    ∧ RoutingRequestHandler.parse_and_route
        (⟨{ response_routes := [("test.path", "handler")] }, none⟩ :
          RoutingRequestHandler String)
        { data := [], metadata := [MetadataItem.routing ["test.path"]] } =
      Except.error PyErr.typeError := by
  refine ⟨?_, rfl, ?_⟩
  · intro H h p
    rw [parse_and_route_eq]
    cases h1 : require_route p.metadata with
    | error e => exact ⟨e, by simp [h1]⟩
    | ok route =>
      cases h2 : verify_authentication h.authentication_verifier route p.metadata with
      | error e => exact ⟨e, by simp [h1, h2]⟩
      | ok u => exact ⟨PyErr.typeError, by simp [h1, h2]⟩
  · rw [parse_and_route_eq]
    rfl

/-- C2: for every request frame type, registering a handler with a null or
empty route raises `RSocketEmptyRoute`, registering a second handler under
a route already registered for that same frame type raises a `KeyError` at
registration time, and a registration with a fresh non-empty route succeeds
and maps that route to the given handler in that frame type's table. -/
theorem route_registration_rules {H : Type} (r : RequestRouter H)
    (ft : FrameType) (table : List (String × H)) (f : H)
    (htable : r.route_map_by_frame_type ft = some table) :
    ((r.register ft none f).1 = some PyErr.emptyRoute)
    ∧ ((r.register ft (some "") f).1 = some PyErr.emptyRoute)
    ∧ (∀ rt g, rt ≠ "" → lookupRoute table rt = some g →
        (r.register ft (some rt) f).1 = some (PyErr.duplicateRoute rt))
    ∧ (∀ rt, rt ≠ "" → lookupRoute table rt = none →
        (r.register ft (some rt) f).1 = none
        ∧ (r.register ft (some rt) f).2.route_map_by_frame_type ft =
            some (table ++ [(rt, f)])
        ∧ lookupRoute (table ++ [(rt, f)]) rt = some f) := by
  cases ft <;>
    simp only [RequestRouter.route_map_by_frame_type, Option.some.injEq,
      reduceCtorEq] at htable <;>
    subst htable <;>
    refine ⟨by simp [RequestRouter.register, (decorator_factory_spec _ f).1],
      by simp [RequestRouter.register, (decorator_factory_spec _ f).2.1],
      fun rt g hne hlk => by
        simp [RequestRouter.register, (decorator_factory_spec _ f).2.2.1 rt g hne hlk],
      fun rt hne hlk =>
        ⟨by simp [RequestRouter.register, (decorator_factory_spec _ f).2.2.2 rt hne hlk],
         by simp [RequestRouter.register, (decorator_factory_spec _ f).2.2.2 rt hne hlk,
              RequestRouter.route_map_by_frame_type],
         lookupRoute_append_of_none _ _ _ hlk⟩⟩

/-- Witness for C2 at the REQUEST_RESPONSE frame type with the route
`"path1"` of the repository's tests: a fresh registration succeeds, and
with `"path1"` registered, both the duplicate and the empty registration
raise. -/
theorem route_registration_rules_witness :
    (((RequestRouter.register ({} : RequestRouter String)
        FrameType.requestResponse (some "path1") "f1").1 = none)
      ∧ ((RequestRouter.register ({} : RequestRouter String)
          FrameType.requestResponse (some "path1") "f1").2.route_map_by_frame_type
            FrameType.requestResponse = some [("path1", "f1")])
      ∧ lookupRoute [("path1", "f1")] "path1" = some "f1")
    ∧ ((RequestRouter.register
        ({ response_routes := [("path1", "f1")] } : RequestRouter String)
        FrameType.requestResponse (some "path1") "f2").1 =
          some (PyErr.duplicateRoute "path1"))
    ∧ ((RequestRouter.register
        ({ response_routes := [("path1", "f1")] } : RequestRouter String)
        FrameType.requestResponse none "f2").1 = some PyErr.emptyRoute) :=
  ⟨(route_registration_rules ({} : RequestRouter String) FrameType.requestResponse
      [] "f1" rfl).2.2.2 "path1" (by decide) rfl,
   (route_registration_rules
      ({ response_routes := [("path1", "f1")] } : RequestRouter String)
      FrameType.requestResponse [("path1", "f1")] "f2" rfl).2.2.1 "path1" "f1"
      (by decide) rfl,
   (route_registration_rules
      ({ response_routes := [("path1", "f1")] } : RequestRouter String)
      FrameType.requestResponse [("path1", "f1")] "f2" rfl).1⟩

/-- C10: registration failure is atomic — when registering raises (empty or
null route, or a duplicate route for that frame type) the router is
unchanged, so in particular the originally registered handler is still the
one mapped to that route, and an empty-route attempt adds no entry. -/
theorem route_registration_atomic {H : Type} (r : RequestRouter H)
    (ft : FrameType) (route : Option String) (f : H) :
    ((r.register ft route f).1.isSome → (r.register ft route f).2 = r)
    ∧ (∀ table rt g, r.route_map_by_frame_type ft = some table →
        rt ≠ "" → lookupRoute table rt = some g →
        (r.register ft (some rt) f).2 = r
        ∧ (r.register ft (some rt) f).2.route_map_by_frame_type ft = some table)
    ∧ ((r.register ft none f).2 = r) := by
  have hpres : ∀ (route : Option String),
      ((r.register ft route f).1.isSome → (r.register ft route f).2 = r) := by
    intro route hsome
    cases ft <;>
      simp only [RequestRouter.register] at hsome ⊢ <;>
      first
        | rfl
        | rw [decorator_factory_error_preserves _ route f hsome]
  refine ⟨hpres route, fun table rt g htable hne hlk => ?_, ?_⟩
  · have hdup : (r.register ft (some rt) f).1.isSome := by
      cases ft <;>
        simp only [RequestRouter.route_map_by_frame_type, Option.some.injEq,
          reduceCtorEq] at htable <;>
        subst htable <;>
        simp [RequestRouter.register,
          (decorator_factory_spec _ f).2.2.1 rt g hne hlk]
    have heq := hpres (some rt) hdup
    exact ⟨heq, by rw [heq, htable]⟩
  · have hempty : (r.register ft none f).1.isSome ∨ (r.register ft none f).2 = r := by
      cases ft <;> simp [RequestRouter.register, (decorator_factory_spec _ f).1]
    rcases hempty with hs | hr
    · exact hpres none hs
    · exact hr

/-- Witness for C10: with `"path1"` already registered for REQUEST_RESPONSE,
a duplicate registration attempt leaves the router exactly as it was. -/
theorem route_registration_atomic_witness :
    (RequestRouter.register
      ({ response_routes := [("path1", "f1")] } : RequestRouter String)
      FrameType.requestResponse (some "path1") "f2").2 =
      ({ response_routes := [("path1", "f1")] } : RequestRouter String) :=
  ((route_registration_atomic
      ({ response_routes := [("path1", "f1")] } : RequestRouter String)
      FrameType.requestResponse (some "path1") "f2").2.1
    [("path1", "f1")] "path1" "f1" rfl (by decide) rfl).1

/-- C6: on setup, the routing request handler accepts the connection only
when the metadata mime type equals
`message/x.rsocket.composite-metadata.v0`; for every other metadata
encoding `on_setup` raises, and on the accepted path it stores the data and
metadata encodings and delegates to the base handler's `on_setup`. -/
theorem on_setup_requires_composite_metadata (data_encoding metadata_encoding : String) :
    (metadata_encoding = MESSAGE_RSOCKET_COMPOSITE_METADATA →
      on_setup data_encoding metadata_encoding =
        Except.ok ⟨data_encoding, metadata_encoding, true⟩)
    ∧ (metadata_encoding ≠ MESSAGE_RSOCKET_COMPOSITE_METADATA →
      on_setup data_encoding metadata_encoding =
        Except.error PyErr.setupNotCompositeMetadata) := by
  constructor <;> intro h <;> simp [on_setup, h]

/-- Witness for C6: the composite-metadata mime is accepted with both
encodings stored and the base handler reached; `application/json` as
metadata encoding fails the setup. -/
theorem on_setup_requires_composite_metadata_witness :
    on_setup "application/json" MESSAGE_RSOCKET_COMPOSITE_METADATA =
      Except.ok ⟨"application/json", MESSAGE_RSOCKET_COMPOSITE_METADATA, true⟩
    ∧ on_setup "application/json" "application/json" =
      Except.error PyErr.setupNotCompositeMetadata :=
  ⟨(on_setup_requires_composite_metadata "application/json"
      MESSAGE_RSOCKET_COMPOSITE_METADATA).1 rfl,
   (on_setup_requires_composite_metadata "application/json" "application/json").2
      (by decide)⟩

/-- C7: with a verifier configured (also the default always-allow one), a
routed request whose composite metadata holds an AUTHENTICATION entry has
the verifier invoked on the extracted route and that entry's
authentication, and a verifier failure aborts dispatch with that error; a
request without an AUTHENTICATION entry is rejected without dispatching,
whatever the verifier. -/
theorem authentication_verified_before_dispatch {H : Type}
    (router : RequestRouter H) (v : Verifier) (p : Payload) (route : String)
    (hroute : require_route p.metadata = Except.ok route) :
    (firstAuthentication p.metadata = none →
      RoutingRequestHandler.parse_and_route ⟨router, some v⟩ p =
        Except.error PyErr.authenticationRequired)
    ∧ (∀ a, firstAuthentication p.metadata = some a →
        verify_authentication (some v) route p.metadata = v route a
        ∧ ∀ e, v route a = Except.error e →
            RoutingRequestHandler.parse_and_route ⟨router, some v⟩ p =
              Except.error e) := by
  constructor
  · intro hnone
    rw [parse_and_route_eq]
    simp [hroute, verify_authentication, hnone]
  · intro a hsome
    have hverify : verify_authentication (some v) route p.metadata = v route a := by
      simp [verify_authentication, hsome]
    refine ⟨hverify, fun e he => ?_⟩
    rw [parse_and_route_eq]
    simp [hroute, hverify, he]

/-- Witness for C7: under the default always-allow verifier, a request with
a route but no AUTHENTICATION entry is rejected. -/
theorem authentication_verified_before_dispatch_witness :
    require_route [MetadataItem.routing ["test.path"]] = Except.ok "test.path"
    ∧ RoutingRequestHandler.parse_and_route
        (⟨{}, some always_allow_authenticator⟩ : RoutingRequestHandler String)
        { metadata := [MetadataItem.routing ["test.path"]] } =
      Except.error PyErr.authenticationRequired :=
  ⟨rfl,
   (authentication_verified_before_dispatch ({} : RequestRouter String)
      always_allow_authenticator
      { metadata := [MetadataItem.routing ["test.path"]] } "test.path" rfl).1 rfl⟩

/-- C8: on the initial REQUEST_CHANNEL frame, a responder whose subscriber
has no subscription sends COMPLETE and marks the channel completed and
finished, and never requests demand; a responder with a subscription
forwards the frame's `initial_request_n` as demand and does not complete;
and in either case the remote direction is completed exactly when the frame
has `flags_complete` set. -/
theorem channel_responder_initial_frame (has_subscription : Bool) (n : Nat)
    (flags_complete : Bool) :
    (has_subscription = false →
      ResponderAction.sendComplete ∈
          frame_received has_subscription (ChannelFrame.requestChannel n flags_complete)
        ∧ ResponderAction.markCompletedAndFinish true ∈
          frame_received has_subscription (ChannelFrame.requestChannel n flags_complete)
        ∧ ∀ m, ResponderAction.requestDemand m ∉
          frame_received has_subscription (ChannelFrame.requestChannel n flags_complete))
    ∧ (has_subscription = true →
      ResponderAction.requestDemand n ∈
          frame_received has_subscription (ChannelFrame.requestChannel n flags_complete)
        ∧ ResponderAction.sendComplete ∉
          frame_received has_subscription (ChannelFrame.requestChannel n flags_complete)
        ∧ ∀ b, ResponderAction.markCompletedAndFinish b ∉
          frame_received has_subscription (ChannelFrame.requestChannel n flags_complete))
    ∧ (ResponderAction.completeRemoteSubscriber ∈
        frame_received has_subscription (ChannelFrame.requestChannel n flags_complete)
        ↔ flags_complete = true) := by
  cases has_subscription <;> cases flags_complete <;>
    simp [frame_received]

/-- Witness for C8: with no subscription and `flags_complete` set, the
responder sends COMPLETE. -/
theorem channel_responder_initial_frame_witness :
    ResponderAction.sendComplete ∈
      frame_received false (ChannelFrame.requestChannel 5 true) :=
  ((channel_responder_initial_frame false 5 true).1 rfl).1

/-- C9: every exception raised while parsing, authenticating or invoking the
handler of a fire-and-forget request is caught and logged only —
`request_fire_and_forget` never re-raises, and its outcome carries no value
that could be reported back to the requester. -/
theorem fire_and_forget_errors_logged_only {H : Type}
    (h : RoutingRequestHandler H) (p : Payload) :
    (∀ e, h.parse_and_route p = Except.error e →
      h.request_fire_and_forget p = FnfOutcome.logged e)
    ∧ (h.request_fire_and_forget p = FnfOutcome.completed
        ∨ ∃ e, h.request_fire_and_forget p = FnfOutcome.logged e) := by
  unfold RoutingRequestHandler.request_fire_and_forget
  cases hp : h.parse_and_route p with
  | ok x =>
    exact ⟨fun e he => Except.noConfusion he, Or.inl rfl⟩
  | error e =>
    exact ⟨fun e' he' => by rw [Except.error.injEq] at he'; rw [he'],
      Or.inr ⟨e, rfl⟩⟩

/-- Witness for C9: a fire-and-forget payload without any route raises
`No route found in request`, which is logged, not re-raised. -/
theorem fire_and_forget_errors_logged_only_witness :
    RoutingRequestHandler.request_fire_and_forget
      (⟨{}, some always_allow_authenticator⟩ : RoutingRequestHandler String)
      {} = FnfOutcome.logged PyErr.noRouteFound :=
  (fire_and_forget_errors_logged_only
    (⟨{}, some always_allow_authenticator⟩ : RoutingRequestHandler String) {}).1
    PyErr.noRouteFound rfl

end RSocketPy
